import Mathlib

/-!
Shallow embedding of the `pycule` MCule API client (files
`pycule/decorators.py`, `pycule/callbacks.py`, `pycule/urls.py`,
`pycule/core.py`).

Wall-clock times are modelled as exact rationals (`ℚ`): Python's
`time.time()` values only ever enter the code through subtraction and
comparison, which the rational model reproduces.  Python exceptions are
modelled with `Except`; the mutable module-level rate-limiter state
(`LAST_REQUEST_TIME`, `REQUEST_COUNT`) is threaded explicitly.
-/

attribute [local semireducible] Rat.add Rat.sub Rat.mul Rat.inv

/-! ## decorators.py: module-level constants and state -/

def MAXIMUM_REQUESTS_PER_MINUTE : Nat := 100

def MAXIMUM_REQUESTS_PER_DAY : Nat := 1000

/-- `MININUM_TIMEOUT_BETWEEN_REQUESTS = 1e-5` (seconds), spelling as in the source. -/
def MININUM_TIMEOUT_BETWEEN_REQUESTS : ℚ := 1 / 100000

/-- The shared rate-limiter state: the module globals `LAST_REQUEST_TIME`
and `REQUEST_COUNT` of `pycule/decorators.py`. -/
structure RateState where
  lastRequestTime : ℚ
  requestCount : Nat
deriving DecidableEq, Repr

/-- The state at module import: `LAST_REQUEST_TIME = int(time.time()) - 86400`
(one-day offset) and `REQUEST_COUNT = 0`, where `startTime` is the value of
`time.time()` at import. -/
def initialRateState (startTime : ℚ) : RateState :=
  { lastRequestTime := ((⌊startTime⌋ : ℤ) : ℚ) - 86400, requestCount := 0 }

/-- The two admission exceptions raised by `mcule_api_limits`. -/
inductive McError where
  | RequestsPerMinuteExceeded
  | RequestTimeoutNotElapsed
deriving DecidableEq, Repr

/-- Result of one pass through the `_wrapper` closure of `mcule_api_limits`:
the value returned or exception raised, the rate-limiter state afterwards,
and whether the wrapped function was invoked. -/
structure GateOutcome (ε α : Type) where
  result : Except (McError ⊕ ε) α
  state : RateState
  invoked : Bool

/-- The `_wrapper` closure produced by the `mcule_api_limits` decorator
(`pycule/decorators.py`, lines 56-81), with the wrapped call's outcome
supplied as `call` (`Except.ok` = normal return, `Except.error` = the
wrapped function raised) and the `time.time()` reading as
`current_request_time`.  Branch order follows the source: frequency check,
optional counter reset, per-minute quota check, function call, then the
updates of `LAST_REQUEST_TIME` and `REQUEST_COUNT`. -/
def mcule_api_limits (call : Except ε α) (current_request_time : ℚ)
    (s : RateState) : GateOutcome ε α :=
  if current_request_time - s.lastRequestTime < MININUM_TIMEOUT_BETWEEN_REQUESTS then
    { result := Except.error (Sum.inl McError.RequestTimeoutNotElapsed),
      state := s, invoked := false }
  else
    let s1 : RateState :=
      if current_request_time - s.lastRequestTime ≥ 60 then
        { s with requestCount := 0 }
      else s
    if s1.requestCount ≥ MAXIMUM_REQUESTS_PER_MINUTE then
      { result := Except.error (Sum.inl McError.RequestsPerMinuteExceeded),
        state := s1, invoked := false }
    else
      match call with
      | Except.error e =>
          { result := Except.error (Sum.inr e), state := s1, invoked := true }
      | Except.ok a =>
          { result := Except.ok a,
            state := { lastRequestTime := current_request_time,
                       requestCount := s1.requestCount + 1 },
            invoked := true }

/-- Run a sequence of gated calls (each wrapped function returning
normally) at the given `time.time()` readings, recording for each call
whether it was admitted. -/
def runGatedCalls : List ℚ → RateState → List Bool × RateState
  | [], s => ([], s)
  | t :: ts, s =>
      let o := mcule_api_limits (ε := Empty) (α := Unit) (Except.ok ()) t s
      let r := runGatedCalls ts o.state
      ((match o.result with | Except.ok _ => true | Except.error _ => false) :: r.1, r.2)

/-- Consecutive call times, each at least the minimum spacing and strictly
less than 60 seconds after the previous one (the first measured against
`prev`). -/
def spacedBelow60From (prev : ℚ) : List ℚ → Prop
  | [] => True
  | t :: ts =>
      MININUM_TIMEOUT_BETWEEN_REQUESTS ≤ t - prev ∧ t - prev < 60 ∧ spacedBelow60From t ts

instance spacedBelow60From.instDecidable :
    (prev : ℚ) → (ts : List ℚ) → Decidable (spacedBelow60From prev ts)
  | _, [] => isTrue trivial
  | _, t :: ts =>
      haveI := spacedBelow60From.instDecidable t ts
      inferInstanceAs (Decidable (_ ∧ _ ∧ _))

/-- The call times `0, 1, …, 99` used to drive the counter to its maximum. -/
def c1WindowTimes : List ℚ := (List.range 100).map fun i => (i : ℚ)

/-! ## callbacks.py and the response_handling decorator -/

/-- Parsed JSON values (Python objects produced by `response.json()`). -/
inductive JsonValue where
  | null
  | bool (b : Bool)
  | num (n : ℤ)
  | str (s : String)
  | arr (elems : List JsonValue)
  | obj (fields : List (String × JsonValue))

/-- Python lookup exceptions: `KeyError` from `d[key]`, `IndexError` from
`xs[i]`, `TypeError` from subscripting a non-container. -/
inductive PyLookupError where
  | keyError (k : String)
  | indexError (i : Nat)
  | typeError
deriving DecidableEq, Repr

/-- Python `value[key]` on a parsed JSON value. -/
def JsonValue.getKey (j : JsonValue) (k : String) : Except PyLookupError JsonValue :=
  match j with
  | .obj fields =>
      match fields.lookup k with
      | some v => Except.ok v
      | none => Except.error (PyLookupError.keyError k)
  | _ => Except.error PyLookupError.typeError

/-- Python `value[i]` on a parsed JSON value. -/
def JsonValue.getIdx (j : JsonValue) (i : Nat) : Except PyLookupError JsonValue :=
  match j with
  | .arr elems =>
      match elems.get? i with
      | some v => Except.ok v
      | none => Except.error (PyLookupError.indexError i)
  | _ => Except.error PyLookupError.typeError

/-- An HTTP response as consumed by the classifier: `status_code`, `text`
and the parsed JSON body (`response.json()`). -/
structure HttpResponse where
  status_code : ℤ
  text : String
  json : JsonValue

/-- A value in one of the caller-facing result dictionaries: either the
raw response object or a (piece of) parsed JSON. -/
inductive DictValue where
  | rawResponse (r : HttpResponse)
  | json (j : JsonValue)

/-- The caller-facing result dictionary. -/
def PyDict : Type := List (String × DictValue)

/-- `search_result_on_success` (`pycule/callbacks.py`, lines 8-21): extract
`response_dict["results"][0]["compound"]["idx"]` as `compound_id`;
lookup failures propagate as exceptions. -/
def search_result_on_success (response : HttpResponse) : Except PyLookupError PyDict :=
  let response_dict := response.json
  (((response_dict.getKey "results").bind (fun r => r.getIdx 0)).bind
      (fun r => r.getKey "compound")).bind
    (fun c => (c.getKey "idx").map
      (fun v => [("compound_id", DictValue.json v),
                 ("response", DictValue.json response_dict)]))

/-- `default_on_success` (`pycule/callbacks.py`, lines 24-33). -/
def default_on_success (response : HttpResponse) : Except PyLookupError PyDict :=
  Except.ok [("response", DictValue.json response.json)]

/-- Severities used by the classifier's logging. -/
inductive LogLevel where
  | error
  | debug
deriving DecidableEq, Repr

/-- One log record: severity and message. -/
structure LogEntry where
  level : LogLevel
  message : String

/-- The `_wrapper` closure of the `response_handling` decorator
(`pycule/decorators.py`, lines 105-132), applied to the response produced
by the wrapped function.  On the expected status the `on_success` callback
result (including any exception it raises) is returned as-is; every other
status only logs — each `elif` branch falls through to the common
`return {"response": response}` — so the raw response is wrapped and
returned, and no exception is raised. -/
def response_handling (success_status_code : ℤ)
    (on_success : HttpResponse → Except PyLookupError PyDict)
    (response : HttpResponse) : Except PyLookupError PyDict × List LogEntry :=
  if response.status_code = success_status_code then
    (on_success response, [])
  else
    let logs : List LogEntry :=
      if response.status_code = 400 then
        [⟨LogLevel.error, "Bad request - probably a validation error"⟩,
         ⟨LogLevel.debug, response.text⟩]
      else if response.status_code = 401 then
        [⟨LogLevel.error, "Unauthorised - check your API key"⟩,
         ⟨LogLevel.debug, response.text⟩]
      else if response.status_code = 403 then
        [⟨LogLevel.error, "Permission denied"⟩, ⟨LogLevel.debug, response.text⟩]
      else if response.status_code = 404 then
        [⟨LogLevel.error, "Not found"⟩, ⟨LogLevel.debug, response.text⟩]
      else if response.status_code = 429 then
        [⟨LogLevel.error, "Too many requests made"⟩, ⟨LogLevel.debug, response.text⟩]
      else if response.status_code = 500 then
        [⟨LogLevel.error, "Server error"⟩, ⟨LogLevel.debug, response.text⟩]
      else []
    (Except.ok [("response", DictValue.rawResponse response)], logs)

/-- The JSON body used in the spec's classifier example:
`{"results":[{"compound":{"idx":"MCULE-001"}}]}`. -/
def exampleSearchBody : JsonValue :=
  JsonValue.obj [("results", JsonValue.arr
    [JsonValue.obj [("compound", JsonValue.obj [("idx", JsonValue.str "MCULE-001")])]])]

/-! ## urls.py: MCuleRoutes -/

/-- The attributes of an `MCuleRoutes` instance: `_base_url` (set in
`__init__`) and the URL attributes assigned by `_update_routes`
(`pycule/urls.py`, lines 22-53). -/
structure MCuleRoutes where
  _base_url : String
  api_url : String
  database_url : String
  compounddetails_url : String
  inchikeylookup_url : String
  singlequery_url : String
  compoundavailability_url : String
  compoundprices_url : String
  multiplequeries_url : String
  multiplequerieswithavailability_url : String
  similaritysearch_url : String
  substructuresearch_url : String
  quoterequest_url : String
  quoterequeststatus_url : String
  detailedquote_url : String
  quotemissingstructures_url : String
  downloadquote_url : String
deriving DecidableEq, Repr

/-- `MCuleRoutes._update_routes`: every route attribute recomputed from
`_base_url`; each `"{}/{}".format(a, b, …)` call is transcribed as the
corresponding concatenation. -/
def MCuleRoutes._update_routes (_base_url : String) : MCuleRoutes :=
  let api_url := _base_url ++ "/" ++ "api/v1"
  { _base_url := _base_url
    api_url := api_url
    database_url := api_url ++ "/" ++ "database-files"
    compounddetails_url := api_url ++ "/" ++ "compound" ++ "/" ++ "{mcule_id}"
    inchikeylookup_url := api_url ++ "/" ++ "lookup/inchikey" ++ "/" ++ "{inchi_key}"
    singlequery_url :=
      api_url ++ "/" ++ "search" ++ "/" ++ "lookup" ++ "/" ++ "?query=" ++ "{query}"
    compoundavailability_url :=
      api_url ++ "/" ++ "compound" ++ "/" ++ "{mcule_id}" ++ "/" ++ "availability"
    compoundprices_url :=
      api_url ++ "/" ++ "compound" ++ "/" ++ "{mcule_id}" ++ "/" ++ "prices"
    multiplequeries_url := api_url ++ "/" ++ "search" ++ "/" ++ "exact" ++ "/"
    multiplequerieswithavailability_url :=
      api_url ++ "/" ++ "search" ++ "/" ++ "exact" ++ "/" ++ "availability" ++ "/"
    similaritysearch_url := api_url ++ "/" ++ "search" ++ "/" ++ "sim" ++ "/"
    substructuresearch_url := api_url ++ "/" ++ "search" ++ "/" ++ "sss" ++ "/"
    quoterequest_url := api_url ++ "/" ++ "iquote-queries" ++ "/"
    quoterequeststatus_url := api_url ++ "/" ++ "iquote-queries" ++ "/" ++ "{quote_id}"
    detailedquote_url := api_url ++ "/" ++ "iquotes" ++ "/" ++ "{quote_id}"
    quotemissingstructures_url :=
      api_url ++ "/" ++ "iquotes" ++ "/" ++ "{quote_id}" ++ "/" ++ "missing"
    downloadquote_url :=
      api_url ++ "/" ++ "iquotes" ++ "/" ++ "{quote_id}" ++ "/" ++ "{download_type}" }

/-- `MCuleRoutes.__init__` with an explicitly supplied base URL (the
environment-variable fallback used when no argument is given lies outside
the pure model). -/
def MCuleRoutes.init (base_url : String) : MCuleRoutes :=
  MCuleRoutes._update_routes base_url

/-- The `base_url` property setter: store the new value and rerun
`_update_routes`, which overwrites every route attribute; nothing of the
previous instance survives. -/
def MCuleRoutes.set_base_url (_r : MCuleRoutes) (value : String) : MCuleRoutes :=
  MCuleRoutes._update_routes value

/-- The URL attributes of a route table, as a list. -/
def MCuleRoutes.routeAttrs (r : MCuleRoutes) : List String :=
  [r.api_url, r.database_url, r.compounddetails_url, r.inchikeylookup_url,
   r.singlequery_url, r.compoundavailability_url, r.compoundprices_url,
   r.multiplequeries_url, r.multiplequerieswithavailability_url,
   r.similaritysearch_url, r.substructuresearch_url, r.quoterequest_url,
   r.quoterequeststatus_url, r.detailedquote_url, r.quotemissingstructures_url,
   r.downloadquote_url]

/-- The attribute names an `MCuleRoutes` instance carries. -/
def MCuleRoutes.attrNames : List String :=
  ["_base_url", "api_url", "database_url", "compounddetails_url",
   "inchikeylookup_url", "singlequery_url", "compoundavailability_url",
   "compoundprices_url", "multiplequeries_url",
   "multiplequerieswithavailability_url", "similaritysearch_url",
   "substructuresearch_url", "quoterequest_url", "quoterequeststatus_url",
   "detailedquote_url", "quotemissingstructures_url", "downloadquote_url"]

/-- Python `getattr(routes, name)`: `none` models the `AttributeError`
raised for a name that is never assigned on the instance. -/
def MCuleRoutes.getattr (r : MCuleRoutes) (name : String) : Option String :=
  if name = "_base_url" then some r._base_url
  else if name = "api_url" then some r.api_url
  else if name = "database_url" then some r.database_url
  else if name = "compounddetails_url" then some r.compounddetails_url
  else if name = "inchikeylookup_url" then some r.inchikeylookup_url
  else if name = "singlequery_url" then some r.singlequery_url
  else if name = "compoundavailability_url" then some r.compoundavailability_url
  else if name = "compoundprices_url" then some r.compoundprices_url
  else if name = "multiplequeries_url" then some r.multiplequeries_url
  else if name = "multiplequerieswithavailability_url" then
    some r.multiplequerieswithavailability_url
  else if name = "similaritysearch_url" then some r.similaritysearch_url
  else if name = "substructuresearch_url" then some r.substructuresearch_url
  else if name = "quoterequest_url" then some r.quoterequest_url
  else if name = "quoterequeststatus_url" then some r.quoterequeststatus_url
  else if name = "detailedquote_url" then some r.detailedquote_url
  else if name = "quotemissingstructures_url" then some r.quotemissingstructures_url
  else if name = "downloadquote_url" then some r.downloadquote_url
  else none

/-! ## core.py: MCuleWrapper operations -/

/-- Python exceptions surfaced by the client method bodies themselves. -/
inductive CoreError where
  | attributeError (name : String)
deriving DecidableEq, Repr

/-- HTTP verbs used by the client. -/
inductive HttpMethod where
  | get
  | post
deriving DecidableEq, Repr

/-- The single HTTP request a client method body would issue: verb, URL,
and the JSON payload (for POSTs). -/
structure HttpRequest where
  method : HttpMethod
  url : String
  body : Option (List (String × JsonValue))

/-- Python `str.format` keyword substitution: each `\x7bname\x7d`
placeholder replaced by its value. -/
def pyFormat (template : String) (subs : List (String × String)) : String :=
  subs.foldl (fun acc kv => acc.replace ("\x7b" ++ kv.1 ++ "\x7d") kv.2) template

/-- `MCuleWrapper.compoundpricesamount` (`pycule/core.py`, lines 173-190):
the body reads `self.routes.compoundpricessetamount_url` before building
the GET request; an `Except.error` means the body raised before issuing
any HTTP request. -/
def compoundpricesamount (routes : MCuleRoutes) (mcule_id : String)
    (amount : ℚ) : Except CoreError HttpRequest :=
  match routes.getattr "compoundpricessetamount_url" with
  | none => Except.error (CoreError.attributeError "compoundpricessetamount_url")
  | some url =>
      Except.ok { method := HttpMethod.get,
                  url := pyFormat url
                    [("mcule_id", mcule_id), ("amount", toString amount)],
                  body := none }

/-- The `allowed_keywords` list of `MCuleWrapper.quoterequest`
(`pycule/core.py`, lines 329-346), including the misspelled
`higher_amouts`. -/
def allowed_keywords : List String :=
  ["item_filters", "customer_first_name", "customer_last_name",
   "customer_email", "min_amount", "target_volume", "target_cc",
   "extra_amount", "min_extra_amount", "delivery_time", "purity",
   "higher_amouts", "keep_original_salt_form", "keep_original_tautomer_form",
   "keep_original_stereo_form", "deliver_multiple_salt_forms"]

/-- The JSON body assembled by `MCuleWrapper.quoterequest`
(`pycule/core.py`, lines 348-362): keyword arguments are filtered through
`allowed_keywords`, the mandatory fields are set, and the surviving
optional pairs are merged in via `dict.update` (their keys are disjoint
from the mandatory keys, so the update appends).  `optional_args` is the
`**optional_args` mapping as an association list in keyword order, keys
distinct as Python guarantees for kwargs. -/
def quoterequest_data (mcule_ids : List String) (delivery_country : String)
    (amount : ℤ) (optional_args : List (String × JsonValue)) :
    List (String × JsonValue) :=
  let optional_arguments :=
    optional_args.filter (fun kv => allowed_keywords.contains kv.1)
  let data : List (String × JsonValue) :=
    [("mcule_ids", JsonValue.arr (mcule_ids.map JsonValue.str)),
     ("delivery_country", JsonValue.str delivery_country),
     ("amount", JsonValue.num amount)]
  if optional_arguments.isEmpty then data else data ++ optional_arguments

/-! ## Interleaving model of the gated call for concurrent threads -/

/-- The atomic actions a gated call performs on the shared globals, in
program order.  The `with threading.Lock():` blocks of the source acquire
a lock created on the spot, so they exclude nothing, and the quota check
reads `REQUEST_COUNT` outside any lock; treating every action below as
atomic is therefore generous to the code. -/
inductive ThreadStep where
  | checkFrequency
  | maybeResetCount
  | checkCount
  | callFunction
  | writeLastTime
  | incrementCount
deriving DecidableEq, Repr

/-- One gated call, as its sequence of atomic actions. -/
def threadProgram : List ThreadStep :=
  [ThreadStep.checkFrequency, ThreadStep.maybeResetCount, ThreadStep.checkCount,
   ThreadStep.callFunction, ThreadStep.writeLastTime, ThreadStep.incrementCount]

/-- What became of a thread's gated call. -/
inductive ThreadStatus where
  | running
  | admitted
  | failedTimeout
  | failedQuota
deriving DecidableEq, Repr

/-- One thread: its `time.time()` reading, remaining actions, status. -/
structure ThreadState where
  current_request_time : ℚ
  pc : List ThreadStep
  status : ThreadStatus
deriving DecidableEq, Repr

/-- Shared rate-limiter globals plus all threads. -/
structure SystemState where
  shared : RateState
  threads : List ThreadState
deriving DecidableEq, Repr

/-- Effect of one atomic action on the shared state: the new shared state
and, when the action terminates the call, the final status. -/
def execStep (t : ℚ) (stp : ThreadStep) (sh : RateState) :
    RateState × Option ThreadStatus :=
  match stp with
  | ThreadStep.checkFrequency =>
      if t - sh.lastRequestTime < MININUM_TIMEOUT_BETWEEN_REQUESTS then
        (sh, some ThreadStatus.failedTimeout)
      else (sh, none)
  | ThreadStep.maybeResetCount =>
      if t - sh.lastRequestTime ≥ 60 then ({ sh with requestCount := 0 }, none)
      else (sh, none)
  | ThreadStep.checkCount =>
      if sh.requestCount ≥ MAXIMUM_REQUESTS_PER_MINUTE then
        (sh, some ThreadStatus.failedQuota)
      else (sh, none)
  | ThreadStep.callFunction => (sh, none)
  | ThreadStep.writeLastTime => ({ sh with lastRequestTime := t }, none)
  | ThreadStep.incrementCount => ({ sh with requestCount := sh.requestCount + 1 }, none)

/-- Run the next atomic action of thread `i` (no-op if `i` is out of range
or the thread already finished). -/
def stepThread (sys : SystemState) (i : Nat) : SystemState :=
  match sys.threads.get? i with
  | none => sys
  | some th =>
      match th.status, th.pc with
      | ThreadStatus.running, stp :: rest =>
          let r := execStep th.current_request_time stp sys.shared
          let status :=
            match r.2 with
            | some st => st
            | none =>
                if rest.isEmpty then ThreadStatus.admitted else ThreadStatus.running
          let pc := match r.2 with | some _ => [] | none => rest
          { shared := r.1,
            threads := sys.threads.set i
              { current_request_time := th.current_request_time,
                pc := pc, status := status } }
      | _, _ => sys

/-- Run a schedule: at each entry, the named thread takes one atomic step. -/
def runSchedule (sched : List Nat) (sys : SystemState) : SystemState :=
  sched.foldl stepThread sys

/-- Whether `needle` occurs as a contiguous run inside `hay`. -/
def containsSub (needle hay : List Char) : Bool :=
  hay.tails.any fun t => needle.isPrefixOf t

/-- 99 sequential calls at times `851, 852, …, 949`, driving the counter
to one below the maximum. -/
def c8Prefix : List ℚ := (List.range 99).map fun i => ((851 + i : ℕ) : ℚ)

/-- Two threads about to make a gated call at times 950 and 951, with
exactly one admission slot remaining in the shared state. -/
def c8Start : SystemState :=
  { shared := ⟨949, 99⟩,
    threads := [⟨950, threadProgram, ThreadStatus.running⟩,
                ⟨951, threadProgram, ThreadStatus.running⟩] }

/-- An interleaving in which both threads pass the quota check before
either increments the counter. -/
def c8RacySchedule : List Nat := [0, 1, 0, 1, 0, 1, 0, 0, 0, 1, 1, 1]

/-- The same two calls run one after the other. -/
def c8SeqSchedule : List Nat := [0, 0, 0, 0, 0, 0, 1, 1, 1, 1, 1, 1]

instance instDecidableEqExceptLocal {ε α : Type} [DecidableEq ε] [DecidableEq α] :
    DecidableEq (Except ε α) := fun x y =>
  match x, y with
  | .ok a, .ok b => if h : a = b then isTrue (by rw [h]) else isFalse (by simp [h])
  | .ok _, .error _ => isFalse (by simp)
  | .error _, .ok _ => isFalse (by simp)
  | .error a, .error b => if h : a = b then isTrue (by rw [h]) else isFalse (by simp [h])

/-! ## Theorems about the rate limiter -/

theorem gate_eq_timeout {ε α : Type} (call : Except ε α) (t : ℚ) (s : RateState)
    (h1 : t - s.lastRequestTime < MININUM_TIMEOUT_BETWEEN_REQUESTS) :
    mcule_api_limits call t s =
      ⟨Except.error (Sum.inl McError.RequestTimeoutNotElapsed), s, false⟩ := by
  simp [mcule_api_limits, h1]

theorem gate_eq_quota {ε α : Type} (call : Except ε α) (t : ℚ) (s : RateState)
    (h1 : ¬ (t - s.lastRequestTime < MININUM_TIMEOUT_BETWEEN_REQUESTS))
    (h2 : ¬ (t - s.lastRequestTime ≥ 60))
    (h3 : s.requestCount ≥ MAXIMUM_REQUESTS_PER_MINUTE) :
    mcule_api_limits call t s =
      ⟨Except.error (Sum.inl McError.RequestsPerMinuteExceeded), s, false⟩ := by
  simp [mcule_api_limits, h1, h2, h3]

theorem gate_eq_reset_run {ε α : Type} (call : Except ε α) (t : ℚ) (s : RateState)
    (h1 : ¬ (t - s.lastRequestTime < MININUM_TIMEOUT_BETWEEN_REQUESTS))
    (h2 : t - s.lastRequestTime ≥ 60) :
    mcule_api_limits call t s =
      match call with
      | Except.error e2 => ⟨Except.error (Sum.inr e2), ⟨s.lastRequestTime, 0⟩, true⟩
      | Except.ok a => ⟨Except.ok a, ⟨t, 1⟩, true⟩ := by
  cases call <;> simp [mcule_api_limits, h1, h2, MAXIMUM_REQUESTS_PER_MINUTE]

theorem gate_eq_run {ε α : Type} (call : Except ε α) (t : ℚ) (s : RateState)
    (h1 : ¬ (t - s.lastRequestTime < MININUM_TIMEOUT_BETWEEN_REQUESTS))
    (h2 : ¬ (t - s.lastRequestTime ≥ 60))
    (h3 : ¬ (s.requestCount ≥ MAXIMUM_REQUESTS_PER_MINUTE)) :
    mcule_api_limits call t s =
      match call with
      | Except.error e2 => ⟨Except.error (Sum.inr e2), s, true⟩
      | Except.ok a => ⟨Except.ok a, ⟨t, s.requestCount + 1⟩, true⟩ := by
  cases call <;> simp [mcule_api_limits, h1, h2, h3]

theorem runGatedCalls_spaced (ts : List ℚ) (s : RateState)
    (hsp : spacedBelow60From s.lastRequestTime ts)
    (hct : s.requestCount + ts.length ≤ MAXIMUM_REQUESTS_PER_MINUTE) :
    (runGatedCalls ts s).1 = List.replicate ts.length true ∧
    (runGatedCalls ts s).2.requestCount = s.requestCount + ts.length := by
  induction ts generalizing s with
  | nil => simp [runGatedCalls]
  | cons t ts ih =>
      obtain ⟨h1, h2, h3⟩ := hsp
      have hnotlt : ¬ (t - s.lastRequestTime < MININUM_TIMEOUT_BETWEEN_REQUESTS) :=
        not_lt.mpr h1
      have hnotge : ¬ (t - s.lastRequestTime ≥ 60) := not_le.mpr h2
      have hcount : ¬ (s.requestCount ≥ MAXIMUM_REQUESTS_PER_MINUTE) := by
        simp only [MAXIMUM_REQUESTS_PER_MINUTE, List.length_cons] at hct ⊢
        omega
      have hstep : mcule_api_limits (ε := Empty) (α := Unit) (Except.ok ()) t s =
          { result := Except.ok (),
            state := ⟨t, s.requestCount + 1⟩, invoked := true } := by
        simp [mcule_api_limits, hnotlt, hnotge, hcount]
      have ihh := ih ⟨t, s.requestCount + 1⟩ h3 (by simpa [Nat.succ_le] using
        (by simp only [List.length_cons] at hct; omega : s.requestCount + 1 + ts.length ≤ MAXIMUM_REQUESTS_PER_MINUTE))
      simp only [runGatedCalls, hstep, List.length_cons, List.replicate_succ]
      exact ⟨by simp [ihh.1], by simpa [Nat.add_assoc, Nat.add_comm, Nat.add_left_comm] using ihh.2⟩

/-- C3: a gated call whose elapsed time since the last admitted request is
strictly below `MININUM_TIMEOUT_BETWEEN_REQUESTS` raises
`RequestTimeoutNotElapsed`, does not invoke the wrapped function, and
leaves the rate-limiter state (in particular the request counter)
unchanged. -/
theorem gate_too_frequent {ε α : Type} (call : Except ε α) (t : ℚ) (s : RateState)
    (h : t - s.lastRequestTime < MININUM_TIMEOUT_BETWEEN_REQUESTS) :
    (mcule_api_limits call t s).result
        = Except.error (Sum.inl McError.RequestTimeoutNotElapsed) ∧
    (mcule_api_limits call t s).invoked = false ∧
    (mcule_api_limits call t s).state = s := by
  simp [mcule_api_limits, if_pos h]

/-- C1 (counterexample): the code resets the counter 60 seconds after the
*last admitted request*, not 60 seconds after the window start.  Starting
from the initial state, 100 calls at times `0, 1, …, 99` are all admitted,
so the one-minute window of counted requests begins at time `0` (where the
counter was last reset) and the counter reaches the maximum 100.  The next
call, at time `100`, is issued at least 60 seconds after the window start
`0`, yet it is rejected with `RequestsPerMinuteExceeded` instead of being
admitted with the counter reset to 1. -/
theorem quota_reset_not_window_start :
    (runGatedCalls c1WindowTimes (initialRateState 0)).1 = List.replicate 100 true ∧
    (runGatedCalls c1WindowTimes (initialRateState 0)).2 = ⟨99, 100⟩ ∧
    (60 : ℚ) ≤ 100 - 0 ∧
    (mcule_api_limits (ε := Empty) (α := Unit) (Except.ok ()) 100 ⟨99, 100⟩).result
        = Except.error (Sum.inl McError.RequestsPerMinuteExceeded) ∧
    (mcule_api_limits (ε := Empty) (α := Unit) (Except.ok ()) 100 ⟨99, 100⟩).state.requestCount
        = 100 := by decide

/-- C1 (amended): once the counter has reached the maximum, the next gated
call strictly less than 60 seconds after the *last admitted request*
raises `RequestsPerMinuteExceeded` without invoking the wrapped function
and leaves the state unchanged; the counter is reset exactly when 60
seconds have elapsed since the last admitted request, so a call at least
60 seconds after the last admitted request is admitted and leaves the
counter equal to 1. -/
theorem gate_quota_after_max {ε α : Type} (t : ℚ) (s : RateState)
    (hmin : MININUM_TIMEOUT_BETWEEN_REQUESTS ≤ t - s.lastRequestTime)
    (hmax : s.requestCount = MAXIMUM_REQUESTS_PER_MINUTE) :
    (t - s.lastRequestTime < 60 →
        ∀ call : Except ε α,
          (mcule_api_limits call t s).result
              = Except.error (Sum.inl McError.RequestsPerMinuteExceeded) ∧
          (mcule_api_limits call t s).invoked = false ∧
          (mcule_api_limits call t s).state = s) ∧
    (60 ≤ t - s.lastRequestTime →
        ∀ a : α,
          (mcule_api_limits (ε := ε) (Except.ok a) t s).result = Except.ok a ∧
          (mcule_api_limits (ε := ε) (Except.ok a) t s).state = ⟨t, 1⟩) := by
  have hnotlt : ¬ (t - s.lastRequestTime < MININUM_TIMEOUT_BETWEEN_REQUESTS) :=
    not_lt.mpr hmin
  constructor
  · intro hlt call
    have hnotge : ¬ (t - s.lastRequestTime ≥ 60) := not_le.mpr hlt
    have hge : s.requestCount ≥ MAXIMUM_REQUESTS_PER_MINUTE := hmax.ge
    simp [mcule_api_limits, hnotlt, hnotge, hge]
  · intro hge a
    have h0 : ¬ ((0 : Nat) ≥ MAXIMUM_REQUESTS_PER_MINUTE) := by decide
    simp [mcule_api_limits, hnotlt, hge, h0]

/-- Witness for C1 (amended): with the counter saturated at 100 and the
last admitted request at time 0, a call at time 30 is rejected with the
quota error and a call at time 60 is admitted, leaving the counter at 1. -/
theorem gate_quota_after_max_witness :
    ((mcule_api_limits (ε := Unit) (α := Unit) (Except.ok ()) 30 ⟨0, 100⟩).result
        = Except.error (Sum.inl McError.RequestsPerMinuteExceeded) ∧
     (mcule_api_limits (ε := Unit) (α := Unit) (Except.ok ()) 30 ⟨0, 100⟩).invoked = false ∧
     (mcule_api_limits (ε := Unit) (α := Unit) (Except.ok ()) 30 ⟨0, 100⟩).state = ⟨0, 100⟩) ∧
    ((mcule_api_limits (ε := Unit) (α := Unit) (Except.ok ()) 60 ⟨0, 100⟩).result
        = Except.ok () ∧
     (mcule_api_limits (ε := Unit) (α := Unit) (Except.ok ()) 60 ⟨0, 100⟩).state = ⟨60, 1⟩) :=
  ⟨(gate_quota_after_max 30 ⟨0, 100⟩ (by decide) rfl).1 (by decide) (Except.ok ()),
   (gate_quota_after_max 60 ⟨0, 100⟩ (by decide) rfl).2 (by decide) ()⟩

/-- C9: whenever a gated call terminates by raising — an admission
exception or an exception propagated from the wrapped function — the
last-request timestamp keeps its prior value, and the request counter
either keeps its prior value or was zeroed by the 60-second reset (which
can only fire when at least 60 seconds elapsed since the last admitted
request, in which case the raising step was the wrapped function itself,
not the quota check); the timestamp and counter are advanced only when the
wrapped function returns normally. -/
theorem gate_error_preserves_state {ε α : Type} (call : Except ε α) (t : ℚ) (s : RateState) :
    (∀ e, (mcule_api_limits call t s).result = Except.error e →
        (mcule_api_limits call t s).state.lastRequestTime = s.lastRequestTime ∧
        ((mcule_api_limits call t s).state.requestCount = s.requestCount ∨
          ((mcule_api_limits call t s).state.requestCount = 0 ∧
            60 ≤ t - s.lastRequestTime ∧ ∃ e2, e = Sum.inr e2))) ∧
    (∀ a, (mcule_api_limits call t s).result = Except.ok a →
        (mcule_api_limits call t s).invoked = true ∧
        (mcule_api_limits call t s).state.lastRequestTime = t) := by
  by_cases h1 : t - s.lastRequestTime < MININUM_TIMEOUT_BETWEEN_REQUESTS
  · rw [gate_eq_timeout call t s h1]
    exact ⟨fun e _ => ⟨rfl, Or.inl rfl⟩, fun a ha => by simp at ha⟩
  · by_cases h2 : t - s.lastRequestTime ≥ 60
    · rw [gate_eq_reset_run call t s h1 h2]
      cases call with
      | error e2 =>
          exact ⟨fun e he => ⟨rfl, Or.inr ⟨rfl, h2, e2, by
            simpa using he.symm⟩⟩, fun a ha => by simp at ha⟩
      | ok a =>
          exact ⟨fun e he => by simp at he, fun b hb => ⟨rfl, rfl⟩⟩
    · by_cases h3 : s.requestCount ≥ MAXIMUM_REQUESTS_PER_MINUTE
      · rw [gate_eq_quota call t s h1 h2 h3]
        exact ⟨fun e _ => ⟨rfl, Or.inl rfl⟩, fun a ha => by simp at ha⟩
      · rw [gate_eq_run call t s h1 h2 h3]
        cases call with
        | error e2 =>
            exact ⟨fun e he => ⟨rfl, Or.inl rfl⟩, fun a ha => by simp at ha⟩
        | ok a =>
            exact ⟨fun e he => by simp at he, fun b hb => ⟨rfl, rfl⟩⟩

/-- Witness for C9: a call raising the quota error leaves the state
`⟨0, 100⟩` untouched, and a wrapped-function exception after a 60-second
reset keeps the timestamp while zeroing only the counter. -/
theorem gate_error_preserves_state_witness :
    ((mcule_api_limits (ε := Unit) (α := Unit) (Except.ok ()) 30 ⟨0, 100⟩).state.lastRequestTime
        = 0 ∧
     ((mcule_api_limits (ε := Unit) (α := Unit) (Except.ok ()) 30 ⟨0, 100⟩).state.requestCount
          = 100 ∨
       ((mcule_api_limits (ε := Unit) (α := Unit) (Except.ok ()) 30 ⟨0, 100⟩).state.requestCount
            = 0 ∧ (60 : ℚ) ≤ 30 - 0 ∧
         ∃ e2, (Sum.inl McError.RequestsPerMinuteExceeded : McError ⊕ Unit) = Sum.inr e2))) ∧
    ((mcule_api_limits (ε := Unit) (α := Unit) (Except.error ()) 60 ⟨0, 100⟩).state.lastRequestTime
        = 0 ∧
     ((mcule_api_limits (ε := Unit) (α := Unit) (Except.error ()) 60 ⟨0, 100⟩).state.requestCount
          = 100 ∨
       ((mcule_api_limits (ε := Unit) (α := Unit) (Except.error ()) 60 ⟨0, 100⟩).state.requestCount
            = 0 ∧ (60 : ℚ) ≤ 60 - 0 ∧
         ∃ e2, (Sum.inr () : McError ⊕ Unit) = Sum.inr e2))) :=
  ⟨(gate_error_preserves_state (Except.ok ()) 30 ⟨0, 100⟩).1
      (Sum.inl McError.RequestsPerMinuteExceeded) (by decide),
   (gate_error_preserves_state (Except.error ()) 60 ⟨0, 100⟩).1
      (Sum.inr ()) (by decide)⟩

/-- Witness for C3: a call 0 seconds after the last admitted request
(elapsed `0 < 1e-5`) is rejected with `RequestTimeoutNotElapsed`. -/
theorem gate_too_frequent_witness :
    (mcule_api_limits (ε := Unit) (α := Unit) (Except.ok ()) 100 ⟨100, 0⟩).result
        = Except.error (Sum.inl McError.RequestTimeoutNotElapsed) ∧
    (mcule_api_limits (ε := Unit) (α := Unit) (Except.ok ()) 100 ⟨100, 0⟩).invoked = false ∧
    (mcule_api_limits (ε := Unit) (α := Unit) (Except.ok ()) 100 ⟨100, 0⟩).state = ⟨100, 0⟩ :=
  gate_too_frequent (Except.ok ()) 100 ⟨100, 0⟩ (by decide)

/-- C2 (counterexample): two gated calls from the initial state at times
`0` and `60` are separated by 60 seconds, which is at least the minimum
spacing, and both are admitted — but the second call's 60-second reset
zeroes the counter first, so the final counter is 1, not 2. -/
theorem spaced_calls_counter_not_length :
    MININUM_TIMEOUT_BETWEEN_REQUESTS ≤ 60 - 0 ∧
    (runGatedCalls [0, 60] (initialRateState 0)).1 = [true, true] ∧
    (runGatedCalls [0, 60] (initialRateState 0)).2.requestCount = 1 := by decide

/-- C2 (amended): every sequence of `N ≤ 100` gated calls whose first call
comes at least 60 seconds after the stored last-request time (as holds
from the initial state) and whose consecutive calls are separated by at
least the minimum spacing *and by less than 60 seconds* is fully admitted,
and afterwards the request counter equals exactly `N`. -/
theorem spaced_calls_admit_all (t1 : ℚ) (ts : List ℚ) (s : RateState)
    (h0 : 60 ≤ t1 - s.lastRequestTime)
    (hsp : spacedBelow60From t1 ts)
    (hN : ts.length + 1 ≤ MAXIMUM_REQUESTS_PER_MINUTE) :
    (runGatedCalls (t1 :: ts) s).1 = List.replicate (ts.length + 1) true ∧
    (runGatedCalls (t1 :: ts) s).2.requestCount = ts.length + 1 := by
  have h1 : ¬ (t1 - s.lastRequestTime < MININUM_TIMEOUT_BETWEEN_REQUESTS) :=
    not_lt.mpr (le_trans (by decide) h0)
  have hstep : mcule_api_limits (ε := Empty) (α := Unit) (Except.ok ()) t1 s =
      ⟨Except.ok (), ⟨t1, 1⟩, true⟩ := by
    rw [gate_eq_reset_run _ _ _ h1 (ge_iff_le.mpr h0)]
  have hrest := runGatedCalls_spaced ts ⟨t1, 1⟩ hsp
    (by simp only [MAXIMUM_REQUESTS_PER_MINUTE] at hN ⊢; omega)
  constructor
  · simp only [runGatedCalls, hstep, List.length_cons, List.replicate_succ]
    simp [hrest.1]
  · have h2 : (runGatedCalls ts ⟨t1, 1⟩).2.requestCount = 1 + ts.length := hrest.2
    simp only [runGatedCalls, hstep, List.length_cons]
    show (runGatedCalls ts (⟨t1, 1⟩ : RateState)).2.requestCount = ts.length + 1
    omega

/-- Witness for C2 (amended): three calls at times `5, 6, 7` from the
initial state are all admitted and leave the counter at 3. -/
theorem spaced_calls_admit_all_witness :
    (runGatedCalls [5, 6, 7] (initialRateState 0)).1 = List.replicate 3 true ∧
    (runGatedCalls [5, 6, 7] (initialRateState 0)).2.requestCount = 3 :=
  spaced_calls_admit_all 5 [6, 7] (initialRateState 0) (by decide) (by decide) (by decide)

/-- C4: for every response whose status code differs from the configured
success status code — 400, 401, 403, 404, 429, 500 or any other — the
response-handling wrapper returns `{"response": <raw response>}` and
raises no exception. -/
theorem response_handling_wraps_non_success (sc : ℤ)
    (on_success : HttpResponse → Except PyLookupError PyDict) (r : HttpResponse)
    (h : r.status_code ≠ sc) :
    (response_handling sc on_success r).1
      = Except.ok [("response", DictValue.rawResponse r)] := by
  simp [response_handling, h]

/-- Witness for C4: a 404 against expected status 200 yields the wrapped
raw response. -/
theorem response_handling_wraps_non_success_witness :
    (response_handling 200 default_on_success ⟨404, "not found", JsonValue.null⟩).1
      = Except.ok [("response",
          DictValue.rawResponse ⟨404, "not found", JsonValue.null⟩)] :=
  response_handling_wraps_non_success 200 default_on_success
    ⟨404, "not found", JsonValue.null⟩ (by decide)

/-- C5: on the configured success status with body
`{"results":[{"compound":{"idx":"MCULE-001"}}]}` the search
success-transform yields `{"compound_id": "MCULE-001", "response": <body>}`;
a success body whose `results` list is empty raises an index error, and any
lookup error raised by the transform propagates uncaught through the
response-handling wrapper. -/
theorem search_success_transform :
    (response_handling 201 search_result_on_success ⟨201, "", exampleSearchBody⟩).1
        = Except.ok [("compound_id", DictValue.json (JsonValue.str "MCULE-001")),
                     ("response", DictValue.json exampleSearchBody)] ∧
    (∀ r : HttpResponse, r.status_code = 201 →
        r.json.getKey "results" = Except.ok (JsonValue.arr []) →
        (response_handling 201 search_result_on_success r).1
          = Except.error (PyLookupError.indexError 0)) ∧
    (∀ (r : HttpResponse) (e : PyLookupError), r.status_code = 201 →
        search_result_on_success r = Except.error e →
        (response_handling 201 search_result_on_success r).1 = Except.error e) := by
  refine ⟨rfl, ?_, ?_⟩
  · intro r hst hres
    simp [response_handling, hst, search_result_on_success, hres, JsonValue.getIdx,
      Except.bind, List.get?]
  · intro r e hst herr
    simp [response_handling, hst, herr]

/-- Witness for C5: an empty `results` list raises `IndexError 0`, and a
non-object body raises a `TypeError`, both escaping the wrapper. -/
theorem search_success_transform_witness :
    (response_handling 201 search_result_on_success
        ⟨201, "", JsonValue.obj [("results", JsonValue.arr [])]⟩).1
      = Except.error (PyLookupError.indexError 0) ∧
    (response_handling 201 search_result_on_success ⟨201, "", JsonValue.null⟩).1
      = Except.error PyLookupError.typeError :=
  ⟨search_success_transform.2.1 ⟨201, "", JsonValue.obj [("results", JsonValue.arr [])]⟩
      rfl rfl,
   search_success_transform.2.2 ⟨201, "", JsonValue.null⟩ PyLookupError.typeError rfl rfl⟩

/-- C6: after constructing the route table with base URL
`https://mcule.com` and then assigning `https://custom.example` through
the setter, the setter's result is exactly the table rebuilt from the new
base URL (for every table and every value — no stale field can survive),
every URL attribute starts with the new base URL, and none still contains
the original host `mcule.com`. -/
theorem routes_reflect_latest_base_url :
    (∀ (r : MCuleRoutes) (v : String),
        MCuleRoutes.set_base_url r v = MCuleRoutes._update_routes v) ∧
    ((MCuleRoutes.set_base_url (MCuleRoutes.init "https://mcule.com")
        "https://custom.example").routeAttrs.all
          (fun u => "https://custom.example".toList.isPrefixOf u.toList) = true) ∧
    ((MCuleRoutes.set_base_url (MCuleRoutes.init "https://mcule.com")
        "https://custom.example").routeAttrs.all
          (fun u => !(containsSub "mcule.com".toList u.toList)) = true) :=
  ⟨fun _ _ => rfl, by decide, by decide⟩

/-- C10: every invocation of `MCuleWrapper.compoundpricesamount` raises
`AttributeError` before issuing any HTTP request, for all route tables and
arguments, because `compoundpricessetamount_url` is not among the
attributes `MCuleRoutes` ever defines. -/
theorem compoundpricesamount_attribute_error :
    (∀ (routes : MCuleRoutes) (mcule_id : String) (amount : ℚ),
        compoundpricesamount routes mcule_id amount
          = Except.error (CoreError.attributeError "compoundpricessetamount_url")) ∧
    "compoundpricessetamount_url" ∉ MCuleRoutes.attrNames :=
  ⟨fun _ _ _ => rfl, by decide⟩

/-- C7 (counterexample): the kwargs of `quoterequest` are not passed
through as-is — they are filtered against `allowed_keywords`.  The keyword
`higher_amounts` (spelled as in the method's own docstring) is supplied in
`optional_args` yet is absent from the assembled JSON body, because the
allow-list contains only the misspelling `higher_amouts`. -/
theorem quoterequest_drops_unlisted_kwargs :
    ([("higher_amounts", JsonValue.bool true)].lookup "higher_amounts"
        = some (JsonValue.bool true)) ∧
    ((quoterequest_data ["MCULE-1"] "GB" 1
        [("higher_amounts", JsonValue.bool true)]).lookup "higher_amounts"
        = none) ∧
    "higher_amounts" ∉ allowed_keywords :=
  ⟨rfl, rfl, by decide⟩

theorem lookup_filter_key (p : String → Bool) (k : String) (v : JsonValue) :
    ∀ l : List (String × JsonValue), l.lookup k = some v → p k = true →
      (l.filter fun kv => p kv.1).lookup k = some v
  | [], hl, _ => by simp [List.lookup] at hl
  | (k1, v1) :: l, hl, hp => by
      by_cases hk : k = k1
      · subst hk
        simp only [List.lookup, beq_self_eq_true, if_true] at hl
        simp [List.filter, hp, List.lookup, hl]
      · have hne : (k == k1) = false := beq_eq_false_iff_ne.mpr hk
        simp only [List.lookup, hne, Bool.false_eq_true, if_false] at hl
        have htail := lookup_filter_key p k v l hl hp
        by_cases hp1 : p k1 = true
        · simp [List.filter, hp1, List.lookup, hne, htail]
        · simp only [Bool.not_eq_true] at hp1
          simp [List.filter, hp1, htail]

/-- C7 (amended): a keyword argument of `quoterequest` appears in the
assembled JSON body exactly when its name is in `allowed_keywords`: every
supplied kwarg whose name is allow-listed is passed through to the body
with its value unmodified (kwargs whose names are not in the list, such as
`higher_amounts`, are silently dropped). -/
theorem quoterequest_passes_allowed_kwargs (mcule_ids : List String)
    (delivery_country : String) (amount : ℤ)
    (optional_args : List (String × JsonValue)) (k : String) (v : JsonValue)
    (hk : optional_args.lookup k = some v)
    (hallow : k ∈ allowed_keywords) :
    (quoterequest_data mcule_ids delivery_country amount optional_args).lookup k
      = some v := by
  have hp : allowed_keywords.contains k = true := List.elem_iff.mpr hallow
  have hfilter := lookup_filter_key (fun s => allowed_keywords.contains s) k v
    optional_args hk hp
  have h1 : (k == "mcule_ids") = false :=
    beq_eq_false_iff_ne.mpr (by rintro rfl; exact absurd hallow (by decide))
  have h2 : (k == "delivery_country") = false :=
    beq_eq_false_iff_ne.mpr (by rintro rfl; exact absurd hallow (by decide))
  have h3 : (k == "amount") = false :=
    beq_eq_false_iff_ne.mpr (by rintro rfl; exact absurd hallow (by decide))
  unfold quoterequest_data
  by_cases hemp :
      (optional_args.filter fun kv => allowed_keywords.contains kv.1).isEmpty
  · rw [List.isEmpty_iff.mp hemp] at hfilter
    simp [List.lookup] at hfilter
  · simp only [hemp, if_false, Bool.false_eq_true]
    simp [List.lookup, h1, h2, h3]
    simpa using hfilter

/-- Witness for C7 (amended): the allow-listed kwarg `purity` appears in
the body with its supplied value. -/
theorem quoterequest_passes_allowed_kwargs_witness :
    (quoterequest_data ["MCULE-1"] "GB" 1
        [("purity", JsonValue.num 90)]).lookup "purity"
      = some (JsonValue.num 90) :=
  quoterequest_passes_allowed_kwargs ["MCULE-1"] "GB" 1
    [("purity", JsonValue.num 90)] "purity" (JsonValue.num 90) rfl (by decide)

set_option maxRecDepth 2000

/-- C8: the no-double-admission property fails on the code.  With the
counter one below the maximum (a state reached by 99 admitted calls from
the initial state), two threads at times 950 and 951 can interleave so
that both pass the quota check before either increments the counter: both
finish admitted and the shared counter ends at 101, one past the maximum.
Run sequentially, the same two calls yield exactly one admission and one
`RequestsPerMinuteExceeded`. -/
theorem rate_gate_double_admission :
    ((runGatedCalls c8Prefix (initialRateState 851)).1 = List.replicate 99 true ∧
     (runGatedCalls c8Prefix (initialRateState 851)).2 = c8Start.shared ∧
     c8Start.shared.requestCount + 1 = MAXIMUM_REQUESTS_PER_MINUTE) ∧
    ((runSchedule c8RacySchedule c8Start).threads.map ThreadState.status
        = [ThreadStatus.admitted, ThreadStatus.admitted] ∧
     (runSchedule c8RacySchedule c8Start).shared.requestCount
        = MAXIMUM_REQUESTS_PER_MINUTE + 1) ∧
    ((runSchedule c8SeqSchedule c8Start).threads.map ThreadState.status
        = [ThreadStatus.admitted, ThreadStatus.failedQuota]) :=
  ⟨by decide, ⟨by decide, by decide⟩, by decide⟩
